import Mathlib

/-!
Shallow embedding of the listing normalization and filter/sort query engine of
`src/app.py` (a Streamlit + pandas application), together with proofs about the
properties its specification states.

The program loads a CSV with pandas, cleans the `Price`, `SqFtTotFn` and `DOM`
columns into numeric form, builds a boolean row mask from the UI-selected
filters, and sorts the surviving rows with `DataFrame.sort_values`.  The
embedding below models the pandas primitives the program calls (`read_csv`
column typing, `to_numeric(errors='coerce')`, `Series.between`, `Series.isin`,
`Series.str.contains`, `sort_values` with its default `kind='quicksort'`)
at the level of detail those calls are exercised by the program.

Numeric cell values are modelled as `Int`: every numeric literal appearing in
the program's data paths and in the specification's examples is an integer,
and none of the verified properties depends on fractional values.
-/

/-- A cell of a pandas column as produced by `read_csv`: missing (`NaN`),
a number, or a string.  `read_csv` types a whole column: a column is either
numeric (cells `num`/`na`) or object dtype (cells `str`/`na`); the embedding
keeps the cell type per-cell and recovers the column dtype with
`Price_dtype_is_object` below. -/
inductive Cell where
  | na : Cell
  | num : Int → Cell
  | str : String → Cell
deriving DecidableEq, Repr

/-- The decimal digit character for `d` (used by the model of Python `str()`). -/
def digitChar (d : Nat) : Char := Char.ofNat (48 + d)

/-- Decimal digits of `m`, least significant first, with a fuel bound on the
number of digits (`m` itself always suffices); empty for `0`. -/
def natDigitsRevAux : Nat → Nat → List Char
  | _, 0 => []
  | 0, _ + 1 => []
  | fuel + 1, m + 1 => digitChar ((m + 1) % 10) :: natDigitsRevAux fuel ((m + 1) / 10)

/-- Decimal digits of `m`, least significant first; empty for `0`. -/
def natDigitsRev (m : Nat) : List Char := natDigitsRevAux m m

/-- Model of Python `str()` on a natural number: its decimal digit string. -/
def natStr (m : Nat) : String :=
  if m = 0 then "0" else ⟨(natDigitsRev m).reverse⟩

/-- Model of Python `str()` on an integer. -/
def intStr (n : Int) : String :=
  if n < 0 then "-" ++ natStr n.natAbs else natStr n.natAbs

/-- Value of a digit list read as a decimal numeral, `none` when empty or when
some character is not a digit. -/
def digitsVal : List Char → Option Nat
  | [] => none
  | cs => cs.foldl
      (fun acc? c => acc?.bind fun a =>
        if c.isDigit then some (10 * a + (c.toNat - 48)) else none)
      (some 0)

/-- Model of `pd.to_numeric(errors='coerce')` applied to a string: an
optionally signed decimal integer literal parses to its value, anything else
coerces to `NaN` (`none`).  The model covers integer literals only; no raw
value exercised by the program's data or the specification's examples is
fractional or in scientific notation. -/
def to_numeric (s : String) : Option Int :=
  match s.data with
  | '-' :: rest => (digitsVal rest).map (fun n => -(Int.ofNat n))
  | '+' :: rest => (digitsVal rest).map (fun n => Int.ofNat n)
  | cs => (digitsVal cs).map (fun n => Int.ofNat n)

/-- Model of `Series.astype(str)` on one cell: pandas renders a missing value
as the string `"nan"` and a number via `str()`. -/
def cellAsStr : Cell → String
  | Cell.na => "nan"
  | Cell.num n => intStr n
  | Cell.str s => s

/-- Model of `.str.replace(r'[$,]', '', regex=True)`: every `$` and `,` is
removed (source line 29). -/
def stripPriceStr (s : String) : String :=
  ⟨s.data.filter (fun c => !(c = '$' || c = ','))⟩

/-- Model of `.str.replace(',', '', regex=False)`: every `,` is removed
(source line 36). -/
def stripCommas (s : String) : String :=
  ⟨s.data.filter (fun c => !(c = ','))⟩

/-- Whether the `Price` column has object dtype (`df['Price'].dtype == 'O'`,
source line 28): true exactly when some cell is a string. -/
def Price_dtype_is_object (cells : List Cell) : Bool :=
  cells.any (fun c => match c with | Cell.str _ => true | _ => false)

/-- Model of the `Clean_Price` column (source lines 28-32): if the `Price`
column has object dtype, every cell is stringified, stripped of `$` and `,`,
coerced with `to_numeric` and `fillna(0)`; otherwise the column is passed
through unchanged, a missing value staying missing (`none`). -/
def Clean_Price (cells : List Cell) : List (Option Int) :=
  if Price_dtype_is_object cells then
    cells.map (fun c => some ((to_numeric (stripPriceStr (cellAsStr c))).getD 0))
  else
    cells.map (fun c => match c with | Cell.num n => some n | _ => none)

/-- Model of the `Clean_SqFt` column (source lines 34-39): when `SqFtTotFn`
is present every cell is stringified, stripped of commas, coerced and
`fillna(0)`; when the column is absent the scalar `0` is broadcast to every
row. -/
def Clean_SqFt (sqftCol : Option (List Cell)) (nrows : Nat) : List (Option Int) :=
  match sqftCol with
  | some cells =>
      cells.map (fun c => some ((to_numeric (stripCommas (cellAsStr c))).getD 0))
  | none => List.replicate nrows (some 0)

/-- Model of the in-place `DOM` cleaning (source lines 42-43) on one cell:
`pd.to_numeric(errors='coerce').fillna(0)` applied to the raw column. -/
def DOM_val : Cell → Int
  | Cell.na => 0
  | Cell.num n => n
  | Cell.str s => (to_numeric s).getD 0

/-- Whether `needle` occurs as a contiguous sublist of `hay`: the model of
`Series.str.contains`.  Pandas treats the pattern as a regular expression by
default; the model covers the alphanumeric search terms the program's data
and the claims exercise, on which regex matching coincides with the literal
substring test. -/
def containsSub (needle : List Char) : List Char → Bool
  | [] => needle.isEmpty
  | c :: t => needle.isPrefixOf (c :: t) || containsSub needle t

/-- ASCII lowercasing of one character, modelling Python `str.lower()` on the
character sets the program handles. -/
def lowerChar (c : Char) : Char :=
  if 'A' ≤ c && c ≤ 'Z' then Char.ofNat (c.toNat + 32) else c

/-- ASCII lowercasing of a string (model of Python `str.lower()`). -/
def lowerStr (s : String) : String := ⟨s.data.map lowerChar⟩

/-- Model of `df['Address'].str.lower().str.contains(term, na=False)` at one
cell of an object-dtype `Address` column (source line 104): a missing value
yields `False` (`na=False`), a non-string value inside a mixed object column
yields `False` (`.str.lower()` turns it into `NaN`), and a string is
lowercased and tested for the term as a substring.  The term the program
passes here is already lowercased (source line 102).  This per-cell value is
only consulted when the column holds at least one string value: on a column
with no string cells (numeric or all-missing, hence non-object dtype) the
`.str` accessor itself raises `AttributeError`, which `filtered_indices`
models at column level before any cell is read. -/
def addrMatch (term : String) : Cell → Bool
  | Cell.str s => containsSub term.data (lowerStr s).data
  | _ => false

/-- Model of `df['MLS #'].astype(str).str.contains(term, na=False)` at one
cell (source line 105): the cell is stringified (so a missing value becomes
the literal string `"nan"`) and tested for the term as a substring, with no
lowercasing of the cell. -/
def mlsMatch (term : String) (c : Cell) : Bool :=
  containsSub term.data (cellAsStr c).data

/-- Model of `Series.isin(sel)` at one cell for a list of selected strings
(source line 98): only a string cell equal to a selected string matches. -/
def cellIsIn (c : Cell) (sel : List String) : Bool :=
  match c with
  | Cell.str s => sel.contains s
  | _ => false

/-- Model of `series >= k` at one cell of a numeric or string-free column
(source lines 109 and 111): a missing value compares as `False` (pandas
`NaN >= k` is `False`).  A column containing a string cell makes the whole
comparison raise `TypeError` in pandas; `filtered_indices` models that raise
at column level before any cell value is consulted, so the `false` this
function returns for a string cell is unreachable through the engine. -/
def cellGe (c : Cell) (k : Int) : Bool :=
  match c with
  | Cell.num n => k ≤ n
  | _ => false

/-- Model of `Series.between(lo, hi)` at one cell value: inclusive at both
ends, `False` on a missing value. -/
def obetween (v : Option Int) (lo hi : Int) : Bool :=
  match v with
  | none => false
  | some x => lo ≤ x && x ≤ hi

/-- The loaded dataframe.  The `Price` column is always present (loading
fails otherwise, see `load_data`); every other column the program touches may
be absent from the dataset (`none`).  Loaded datasets are rectangular; a cell
read past a column's length is treated as missing. -/
structure DF where
  price : List Cell
  sqft : Option (List Cell) := none
  dom : Option (List Cell) := none
  address : Option (List Cell) := none
  mls : Option (List Cell) := none
  city : Option (List Cell) := none
  beds : Option (List Cell) := none
  baths : Option (List Cell) := none
  ptype : Option (List Cell) := none
deriving DecidableEq, Repr

/-- The filter criteria one query runs with, as read from the sidebar
controls: the two ends of the `Price Range`, `Square Footage` and
`Days on Market` sliders, the `Town / City` multiselect, the search box, and
the `Min Beds` / `Min Baths` inputs.  `propertyTypes` has no control in
`src/app.py`; it parameterizes the property-type filter modelled from the
specification below. -/
structure FilterSpec where
  price_lo : Int := 0
  price_hi : Int := 0
  sqft_lo : Int := 0
  sqft_hi : Int := 0
  dom_lo : Int := 0
  dom_hi : Int := 0
  cities : List String := []
  searchTerm : String := ""
  minBeds : Int := 0
  minBaths : Int := 0
  propertyTypes : List String := []
deriving DecidableEq, Repr

/-- Model of source lines 63-67: the city multiselect exists only when the
`City` column is present; otherwise `selected_cities` is the empty list. -/
def selected_cities (df : DF) (f : FilterSpec) : List String :=
  match df.city with
  | some _ => f.cities
  | none => []

/-- Cell of a possibly short column at row `i` (rectangular datasets never
exercise the `na` fallback). -/
def cellAt (col : List Cell) (i : Nat) : Cell := col.getD i Cell.na

/-- The search conjunct of the mask at row `i` (source lines 100-106), given
the already-lowercased term: match inside `Address` or `MLS #`. -/
def searchConj (df : DF) (term : String) (i : Nat) : Bool :=
  addrMatch term (cellAt (df.address.getD []) i)
    || mlsMatch term (cellAt (df.mls.getD []) i)

/-- Row `i`'s entry of the boolean Series `mask` (source lines 89-111),
conjunct by conjunct in source order: price and sqft range always; DOM range
only when the `DOM` column exists; city membership only when some cities are
selected; search only when the term is non-empty; minimum beds and baths only
when the respective column exists. -/
def mask (df : DF) (f : FilterSpec) (i : Nat) : Bool :=
  let m := obetween ((Clean_Price df.price).getD i none) f.price_lo f.price_hi
        && obetween ((Clean_SqFt df.sqft df.price.length).getD i none) f.sqft_lo f.sqft_hi
  let m := match df.dom with
    | some dc => m && obetween (some (DOM_val (cellAt dc i))) f.dom_lo f.dom_hi
    | none => m
  let m := if selected_cities df f ≠ [] then
      m && cellIsIn (cellAt (df.city.getD []) i) (selected_cities df f)
    else m
  let m := if f.searchTerm ≠ "" then
      m && searchConj df (lowerStr f.searchTerm) i
    else m
  let m := match df.beds with
    | some bc => m && cellGe (cellAt bc i) f.minBeds
    | none => m
  let m := match df.baths with
    | some bc => m && cellGe (cellAt bc i) f.minBaths
    | none => m
  m

/-- Whether a column contains a string cell: the model of its pandas dtype
being object rather than numeric (`read_csv` yields an object column exactly
when some field is not numeric-looking). -/
def hasStrCell (cells : List Cell) : Bool :=
  cells.any (fun c => match c with | Cell.str _ => true | _ => false)

/-- The rows surviving the filter (`filtered_df = df[mask]`, source line 113),
as the list of their original row indices, or the uncaught Python exception
the mask construction of source lines 89-113 raises, in evaluation order:
with a non-empty search term, `df['Address']` raises `KeyError` when the
column is absent (line 104), then `.str.lower()` raises `AttributeError`
when the (non-empty) `Address` column holds no string value — a numeric or
all-missing column is not object dtype and has no `.str` accessor — then
`df['MLS #']` raises `KeyError` when absent (line 105); afterwards
`df['Bedrooms Total'] >= min_beds` (line 109) and
`df['Bathrooms Total'] >= min_baths` (line 111) raise `TypeError` when the
respective present column contains a textual cell (comparing `str` with
`int`).  The price/sqft/DOM conjuncts (lines 89-95) operate on coerced
numeric columns and never raise, and `isin` (line 98) never raises.  (The
sidebar bound computation at source line 70, outside this filtering stage,
separately raises `ValueError` on a dataset whose every price is missing;
nothing below depends on it.) -/
def filtered_indices (df : DF) (f : FilterSpec) : Except String (List Nat) :=
  if f.searchTerm ≠ "" && df.address.isNone then
    Except.error "KeyError: Address"
  else if f.searchTerm ≠ ""
      && (!(df.address.getD []).isEmpty && !hasStrCell (df.address.getD [])) then
    Except.error "AttributeError: Can only use .str accessor with string values"
  else if f.searchTerm ≠ "" && df.mls.isNone then
    Except.error "KeyError: MLS #"
  else if hasStrCell (df.beds.getD []) then
    Except.error "TypeError: >= not supported between instances of str and int"
  else if hasStrCell (df.baths.getD []) then
    Except.error "TypeError: >= not supported between instances of str and int"
  else
    Except.ok ((List.range df.price.length).filter (fun i => mask df f i))

/-- The index list of a query result, empty on an exception. -/
def okIndices : Except String (List Nat) → List Nat
  | Except.ok l => l
  | Except.error _ => []

/-- Whether a query completed without raising. -/
def isOkE : Except String (List Nat) → Bool
  | Except.ok _ => true
  | Except.error _ => false

/-!
Model of the sort (source lines 120-129).  `DataFrame.sort_values` on a
single column with its default `kind='quicksort'` computes
`nargsort(column_values, kind='quicksort', ascending, na_position='last')`
(pandas `core/sorting.py`) and reorders the rows by the resulting indexer.
`nargsort` separates the missing values out, argsorts the rest with numpy's
`argsort(kind='quicksort')`, reverses around the argsort for a descending
sort, and appends the missing rows' indices at the end.  Numpy's
`quicksort` is an introspective sort (`npysort/quicksort.c`): median-of-3
Hoare-partition quicksort over the index array, switching to a
left-to-right insertion sort on segments of at most 16 elements
(`SMALL_QUICKSORT = 15` compares `pr - pl`), and to a heapsort once the
partition depth exceeds `2 * floor(log2 n)`.  It is not a stable sort.
The functions below model that algorithm; loops become recursion, the
explicit segment stack becomes recursion into the smaller partition first
(the order numpy processes segments in), and the shared depth budget is
threaded through.
-/

/-- Key of index `a` (values being argsorted; indices are always in range). -/
def kval (v : List Int) (a : Nat) : Int := v.getD a 0

/-- Read position `i` of the index array. -/
def lget (t : List Nat) (i : Nat) : Nat := t.getD i 0

/-- Swap positions `i` and `j` of the index array (`INTP_SWAP`). -/
def lswap (t : List Nat) (i j : Nat) : List Nat :=
  (t.set i (lget t j)).set j (lget t i)

/-- The segment of positions `pl..pr` of the index array. -/
def listGetSeg (t : List Nat) (pl pr : Nat) : List Nat :=
  (t.drop pl).take (pr + 1 - pl)

/-- Write `seg` back over positions `pl..` of the index array. -/
def listSetSeg (t : List Nat) (pl : Nat) (seg : List Nat) : List Nat :=
  t.take pl ++ seg ++ t.drop (pl + seg.length)

/-- The partition scan `do ++pi; while (v[*pi] < vp)`. -/
def scanRight (v : List Int) (t : List Nat) (vp : Int) (pi fuel : Nat) : Nat :=
  match fuel with
  | 0 => pi + 1
  | fuel + 1 =>
      let pi := pi + 1
      if kval v (lget t pi) < vp then scanRight v t vp pi fuel else pi

/-- The partition scan `do --pj; while (vp < v[*pj])`. -/
def scanLeft (v : List Int) (t : List Nat) (vp : Int) (pj fuel : Nat) : Nat :=
  match fuel with
  | 0 => pj - 1
  | fuel + 1 =>
      let pj := pj - 1
      if vp < kval v (lget t pj) then scanLeft v t vp pj fuel else pj

/-- The Hoare partition exchange loop; `sfuel` bounds a single scan (the
segment length always suffices: the parked pivot stops both scans), `fuel`
bounds the exchange iterations.  Returns the array and the final `pi`. -/
def partLoop (v : List Int) (t : List Nat) (vp : Int) (pi pj sfuel fuel : Nat) :
    List Nat × Nat :=
  match fuel with
  | 0 => (t, pi)
  | fuel + 1 =>
      let pi := scanRight v t vp pi sfuel
      let pj := scanLeft v t vp pj sfuel
      if pj ≤ pi then (t, pi)
      else partLoop v (lswap t pi pj) vp pi pj sfuel fuel

/-- One quicksort partition of segment `pl..pr`: median-of-3 pivot selection,
pivot parked at `pr - 1`, Hoare exchange scan, pivot swapped to its final
place `pi`.  Returns the array and `pi`. -/
def partitionSeg (v : List Int) (t : List Nat) (pl pr : Nat) : List Nat × Nat :=
  let pm := pl + (pr - pl) / 2
  let t := if kval v (lget t pm) < kval v (lget t pl) then lswap t pm pl else t
  let t := if kval v (lget t pr) < kval v (lget t pm) then lswap t pr pm else t
  let t := if kval v (lget t pm) < kval v (lget t pl) then lswap t pm pl else t
  let vp := kval v (lget t pm)
  let t := lswap t pm (pr - 1)
  let (t, pi) := partLoop v t vp pl (pr - 1) (pr - pl + 2) (pr - pl + 2)
  (lswap t pi (pr - 1), pi)

/-- Insert index `i` into an already sorted index list, before the first
entry with a strictly greater key: the final position the numpy insertion
sort's inner loop moves `i` to. -/
def npInsertIdx (v : List Int) (i : Nat) : List Nat → List Nat
  | [] => [i]
  | j :: t => if kval v i < kval v j then i :: j :: t else j :: npInsertIdx v i t

/-- The insertion sort numpy runs on a small segment, left to right. -/
def npInsertionSort (v : List Int) (seg : List Nat) : List Nat :=
  seg.foldl (fun acc i => npInsertIdx v i acc) []

/-- One-based read of a heap segment (`a = tosort - 1` in the C source). -/
def hGet (seg : List Nat) (i : Nat) : Nat := seg.getD (i - 1) 0

/-- One-based write of a heap segment. -/
def hSet (seg : List Nat) (i : Nat) (x : Nat) : List Nat := seg.set (i - 1) x

/-- The sift-down loop shared by both phases of numpy's `aheapsort`; returns
the segment and the final hole position `i`. -/
def siftLoop (v : List Int) (tmpKey : Int) (seg : List Nat) (i j n fuel : Nat) :
    List Nat × Nat :=
  match fuel with
  | 0 => (seg, i)
  | fuel + 1 =>
      if j ≤ n then
        let j := if j < n && kval v (hGet seg j) < kval v (hGet seg (j + 1))
          then j + 1 else j
        if tmpKey < kval v (hGet seg j) then
          siftLoop v tmpKey (hSet seg i (hGet seg j)) j (j + j) n fuel
        else (seg, i)
      else (seg, i)

/-- The heapify phase of `aheapsort`: `for (l = n >> 1; l > 0; --l)`. -/
def heapifyLoop (v : List Int) (seg : List Nat) (l n : Nat) : List Nat :=
  match l with
  | 0 => seg
  | l' + 1 =>
      let ll := l' + 1
      let tmp := hGet seg ll
      let (seg, i) := siftLoop v (kval v tmp) seg ll (2 * ll) n (n + 1)
      heapifyLoop v (hSet seg i tmp) l' n

/-- The extraction phase of `aheapsort`: `for (; n > 1;)`. -/
def extractLoop (v : List Int) (seg : List Nat) : Nat → List Nat
  | 0 => seg
  | 1 => seg
  | n' + 1 =>
      let nn := n' + 1
      let tmp := hGet seg nn
      let seg := hSet seg nn (hGet seg 1)
      let (seg, i) := siftLoop v (kval v tmp) seg 1 2 n' (n' + 1)
      extractLoop v (hSet seg i tmp) n'

/-- Numpy's `aheapsort` run on segment `pl..pr` of the index array (the
introsort's depth-limit fallback). -/
def aheapsortSeg (v : List Int) (t : List Nat) (pl pr : Nat) : List Nat :=
  let m := pr + 1 - pl
  let seg := listGetSeg t pl pr
  let seg := heapifyLoop v seg (m / 2) m
  let seg := extractLoop v seg m
  listSetSeg t pl seg

/-- The introsort driver of numpy's `aquicksort` on segment `pl..pr`:
partition while the segment is longer than 16 positions and the shared depth
budget is not exhausted (heapsort then), recursing into the smaller
partition first as numpy's explicit stack does; insertion-sort short
segments.  Returns the array and the remaining depth budget. -/
def introLoop (v : List Int) (fuel : Nat) (t : List Nat) (pl pr : Nat)
    (depth : Int) : List Nat × Int :=
  match fuel with
  | 0 => (t, depth)
  | fuel + 1 =>
      if 15 < pr - pl then
        if depth < 0 then (aheapsortSeg v t pl pr, depth - 1)
        else
          let (t, pi) := partitionSeg v t pl pr
          if pi - pl < pr - pi then
            let (t, d) := introLoop v fuel t pl (pi - 1) (depth - 1)
            introLoop v fuel t (pi + 1) pr d
          else
            let (t, d) := introLoop v fuel t (pi + 1) pr (depth - 1)
            introLoop v fuel t pl (pi - 1) d
      else
        (listSetSeg t pl (npInsertionSort v (listGetSeg t pl pr)), depth)

/-- Numpy `argsort(kind='quicksort')` of a list of keys: the indices
`0..n-1` permuted into non-decreasing key order by the introsort above,
with an initial depth budget of `2 * floor(log2 n)`. -/
def npArgsort (v : List Int) : List Nat :=
  if v.length ≤ 1 then List.range v.length
  else (introLoop v (v.length + 1) (List.range v.length) 0 (v.length - 1)
          (2 * (Nat.log2 v.length : Int))).1

/-- Pandas `nargsort` on a column of values with missing entries: argsort
the non-missing values (through a double reversal for a descending sort, so
the numpy argsort always runs ascending) and append the missing rows'
positions at the end (`na_position='last'`). -/
def nargsort (items : List (Option Int)) (ascending : Bool) : List Nat :=
  let idx := List.range items.length
  let nonNanIdx := idx.filter (fun i => (items.getD i none).isSome)
  let nanIdx := idx.filter (fun i => (items.getD i none).isNone)
  let nnIdx := if ascending then nonNanIdx else nonNanIdx.reverse
  let vals := nnIdx.map (fun i => (items.getD i none).getD 0)
  let sorted := (npArgsort vals).map (fun k => lget nnIdx k)
  (if ascending then sorted else sorted.reverse) ++ nanIdx

/-- Reorder the filtered rows (given by their original indices `l`) by the
values column `col`, ascending or descending: the model of
`filtered_df.sort_values(column, ascending)`. -/
def sort_values (col : List (Option Int)) (ascending : Bool) (l : List Nat) :
    List Nat :=
  (nargsort (l.map (fun i => col.getD i none)) ascending).map (fun k => lget l k)

/-- The four entries of the `Sort By` selectbox (source line 120), first
entry (`Price: High to Low`) being the default. -/
inductive SortKey where
  | priceDesc | priceAsc | domAsc | sqftDesc
deriving DecidableEq, Repr

/-- The sort dispatch (source lines 122-129): sort by the matching cleaned
column; the DOM sort applies only when the `DOM` column exists, otherwise the
filtered rows are left as they are. -/
def applySort (df : DF) (k : SortKey) (l : List Nat) : List Nat :=
  match k with
  | SortKey.priceAsc => sort_values (Clean_Price df.price) true l
  | SortKey.priceDesc => sort_values (Clean_Price df.price) false l
  | SortKey.domAsc =>
      match df.dom with
      | some dc => sort_values (dc.map (fun c => some (DOM_val c))) true l
      | none => l
  | SortKey.sqftDesc =>
      sort_values (Clean_SqFt df.sqft df.price.length) false l

/-- The whole query pipeline: filter, then sort. -/
def runQuery (df : DF) (f : FilterSpec) (k : SortKey) :
    Except String (List Nat) :=
  (filtered_indices df f).map (applySort df k)

/-- The raw columns of a source table before `load_data` requires anything of
them: unlike `DF`, even `Price` may be absent. -/
structure RawTable where
  price : Option (List Cell) := none
  sqft : Option (List Cell) := none
  dom : Option (List Cell) := none
  address : Option (List Cell) := none
  mls : Option (List Cell) := none
  city : Option (List Cell) := none
  beds : Option (List Cell) := none
  baths : Option (List Cell) := none
  ptype : Option (List Cell) := none
deriving DecidableEq, Repr

/-- What `load_data` finds at `Default_MLS_Defined_Spreadsheet.csv`: no file
at all, a file `pd.read_csv` cannot parse as tabular data, or a parsed
table. -/
inductive Source where
  | missing : Source
  | unparseable : Source
  | table : RawTable → Source

/-- How a call of `load_data` ends: with `None` (the `except
FileNotFoundError` branch, source lines 47-48, which the caller turns into
the single user-visible load-error message, source lines 53-54); with an
uncaught Python exception escaping `load_data`; or with a loaded dataframe. -/
inductive LoadResult where
  | noFile : LoadResult
  | raised : String → LoadResult
  | loaded : DF → LoadResult
deriving Repr

/-- Model of `load_data` (source lines 19-48).  Only `FileNotFoundError` is
caught: an unparseable file makes `pd.read_csv` raise `ParserError` through
the `except` clause, and a parsed table without a `Price` column makes
`df['Price']` at line 28 raise `KeyError` — in both cases no dataframe,
partial or otherwise, escapes.  Nothing at load time requires an `Address`
column.  The cleaned columns (`Clean_Price`, `Clean_SqFt`, the rewritten
`DOM`) are recomputed from the raw columns by the query-side functions above,
so `load_data` returns the raw columns. -/
def load_data : Source → LoadResult
  | Source.missing => LoadResult.noFile
  | Source.unparseable => LoadResult.raised "ParserError"
  | Source.table t =>
      match t.price with
      | none => LoadResult.raised "KeyError: Price"
      | some pc =>
          LoadResult.loaded
            { price := pc, sqft := t.sqft, dom := t.dom, address := t.address,
              mls := t.mls, city := t.city, beds := t.beds, baths := t.baths,
              ptype := t.ptype }

/-- Modelled from the spec: the `propertyTypes` multi-select filter.  No such
filter exists in `src/app.py` (the spec describes it for the repository's
sibling page variants, which are not under `src/`): "keep rows whose
`propertyType ∈ set`; empty set ⇒ no filtering".  It is modelled with the
same guarded-conjunction shape as the city filter of source lines 97-98. -/
def typesFilter (df : DF) (f : FilterSpec) (l : List Nat) : List Nat :=
  if f.propertyTypes ≠ [] then
    l.filter (fun i => cellIsIn (cellAt (df.ptype.getD []) i) f.propertyTypes)
  else l

/-- The search predicate exactly as claim C3 words it, for comparison with
the engine: the term as a case-insensitive substring of the address or of
the listing id. -/
def claimSearchKeeps (term addr mls : String) : Bool :=
  containsSub (lowerStr term).data (lowerStr addr).data
    || containsSub (lowerStr term).data (lowerStr mls).data

/-- A raw cell that does not denote a negative number under the price
cleaning: missing, a non-negative number, or a string whose stripped parse
(0 on failure) is non-negative. -/
def nonnegPriceCell : Cell → Bool
  | Cell.na => true
  | Cell.num n => decide (0 ≤ n)
  | Cell.str s => decide (0 ≤ (to_numeric (stripPriceStr s)).getD 0)

/-- The sqft analogue of `nonnegPriceCell` (commas only are stripped). -/
def nonnegSqftCell : Cell → Bool
  | Cell.na => true
  | Cell.num n => decide (0 ≤ n)
  | Cell.str s => decide (0 ≤ (to_numeric (stripCommas s)).getD 0)

/-- A concrete two-row dataset with a textual price column and a mixed sqft
column, used to witness C2's amended claim. -/
def dfNonnegW : DF :=
  { price := [Cell.str "$450,000", Cell.na],
    sqft := some [Cell.str "1,200", Cell.num 900] }

/-- The mask of source lines 89-111 with the city conjunct (lines 97-98)
omitted entirely, stated to compare a query whose city selection is empty
with a query from which the city filter is absent. -/
def maskNoCity (df : DF) (f : FilterSpec) (i : Nat) : Bool :=
  let m := obetween ((Clean_Price df.price).getD i none) f.price_lo f.price_hi
        && obetween ((Clean_SqFt df.sqft df.price.length).getD i none) f.sqft_lo f.sqft_hi
  let m := match df.dom with
    | some dc => m && obetween (some (DOM_val (cellAt dc i))) f.dom_lo f.dom_hi
    | none => m
  let m := if f.searchTerm ≠ "" then
      m && searchConj df (lowerStr f.searchTerm) i
    else m
  let m := match df.beds with
    | some bc => m && cellGe (cellAt bc i) f.minBeds
    | none => m
  let m := match df.baths with
    | some bc => m && cellGe (cellAt bc i) f.minBaths
    | none => m
  m

/-- The filtering pipeline built on `maskNoCity`: the engine with the city
filter omitted entirely (same raise paths as `filtered_indices`). -/
def filtered_indices_noCity (df : DF) (f : FilterSpec) :
    Except String (List Nat) :=
  if f.searchTerm ≠ "" && df.address.isNone then
    Except.error "KeyError: Address"
  else if f.searchTerm ≠ ""
      && (!(df.address.getD []).isEmpty && !hasStrCell (df.address.getD [])) then
    Except.error "AttributeError: Can only use .str accessor with string values"
  else if f.searchTerm ≠ "" && df.mls.isNone then
    Except.error "KeyError: MLS #"
  else if hasStrCell (df.beds.getD []) then
    Except.error "TypeError: >= not supported between instances of str and int"
  else if hasStrCell (df.baths.getD []) then
    Except.error "TypeError: >= not supported between instances of str and int"
  else
    Except.ok ((List.range df.price.length).filter (fun i => maskNoCity df f i))

/-- A dataset carrying only what the search filter reads: one address and
one listing id per row, with neutral prices. -/
def searchDF (addrs ms : List String) : DF :=
  { price := List.replicate addrs.length (Cell.num 0),
    address := some (addrs.map Cell.str),
    mls := some (ms.map Cell.str) }

/-- Seventeen rows of equal price: the smallest shape on which numpy's
quicksort leaves its insertion-sort regime. -/
def df17 : DF := { price := List.replicate 17 (Cell.num 400000) }

/-! Helper lemmas about list access and the cleaned columns. -/

theorem getD_map_lt {α β : Type} (f : α → β) :
    ∀ (l : List α) (i : Nat), i < l.length → ∀ (d : β) (e : α),
      (l.map f).getD i d = f (l.getD i e) := by
  intro l
  induction l with
  | nil => intro i h; simp at h
  | cons a t ih =>
      intro i h d e
      cases i with
      | zero => rfl
      | succ j => simpa using ih j (by simpa using h) d e

theorem getD_replicate_lt {α : Type} (a d : α) :
    ∀ (n i : Nat), i < n → (List.replicate n a).getD i d = a := by
  intro n
  induction n with
  | zero => intro i h; simp at h
  | succ m ih =>
      intro i h
      cases i with
      | zero => rfl
      | succ j =>
          rw [List.replicate_succ, List.getD_cons_succ]
          exact ih j (by omega)

theorem getD_append_length {α : Type} (x d : α) :
    ∀ (pre post : List α), (pre ++ x :: post).getD pre.length d = x := by
  intro pre post
  induction pre with
  | nil => rfl
  | cons a t ih => simpa using ih

theorem Clean_Price_num_map (ns : List Int) :
    Clean_Price (ns.map Cell.num) = ns.map (fun n => some n) := by
  have hobj : Price_dtype_is_object (ns.map Cell.num) = false := by
    simp [Price_dtype_is_object, List.any_map, Function.comp]
  simp [Clean_Price, hobj, List.map_map, Function.comp]

theorem Clean_Price_length (cells : List Cell) :
    (Clean_Price cells).length = cells.length := by
  unfold Clean_Price
  split <;> simp

theorem Clean_Price_replicate_num (n : Nat) (k : Int) :
    Clean_Price (List.replicate n (Cell.num k)) = List.replicate n (some k) := by
  have h : List.replicate n (Cell.num k) = (List.replicate n k).map Cell.num := by
    simp [List.map_replicate]
  rw [h, Clean_Price_num_map, List.map_replicate]

/-- C1: for every raw price value, a textual value is stripped of `$` and `,`
and parsed, a parse failure yielding 0 with the row kept (the cleaned column
has one entry per raw cell); an already numeric value passes through
unchanged (also inside a mixed object-dtype column); and `"$1,250,000"`
normalizes to `1250000`. -/
theorem C1_price_normalization :
    (∀ s : String, Clean_Price [Cell.str s]
        = [some ((to_numeric (stripPriceStr s)).getD 0)])
    ∧ (∀ ns : List Int, Clean_Price (ns.map Cell.num) = ns.map (fun n => some n))
    ∧ (∀ cells : List Cell, (Clean_Price cells).length = cells.length)
    ∧ Clean_Price [Cell.str "$1,250,000"] = [some 1250000]
    ∧ Clean_Price [Cell.str "not a price"] = [some 0]
    ∧ Clean_Price [Cell.num 5, Cell.str "$7"] = [some 5, some 7] := by
  refine ⟨?_, Clean_Price_num_map, Clean_Price_length, by decide, by decide, by decide⟩
  intro s
  simp [Clean_Price, Price_dtype_is_object, cellAsStr]

theorem digitChar_isDigit (d : Nat) (h : d < 10) : (digitChar d).isDigit = true := by
  interval_cases d <;> decide

theorem natDigitsRevAux_digits :
    ∀ (fuel m : Nat), ∀ c ∈ natDigitsRevAux fuel m, c.isDigit = true := by
  intro fuel
  induction fuel with
  | zero => intro m c hc; cases m <;> simp [natDigitsRevAux] at hc
  | succ f ih =>
      intro m c hc
      cases m with
      | zero => simp [natDigitsRevAux] at hc
      | succ m' =>
          simp only [natDigitsRevAux, List.mem_cons] at hc
          rcases hc with hc | hc
          · subst hc; exact digitChar_isDigit _ (Nat.mod_lt _ (by omega))
          · exact ih _ c hc

theorem natStr_digits (m : Nat) : ∀ c ∈ (natStr m).data, c.isDigit = true := by
  intro c hc
  unfold natStr at hc
  split at hc
  · simp at hc; subst hc; decide
  · have : c ∈ natDigitsRev m := List.mem_reverse.mp hc
    exact natDigitsRevAux_digits m m c this

theorem intStr_digits (n : Int) (h : 0 ≤ n) :
    ∀ c ∈ (intStr n).data, c.isDigit = true := by
  intro c hc
  unfold intStr at hc
  rw [if_neg (by omega)] at hc
  exact natStr_digits n.natAbs c hc

theorem to_numeric_nonneg (s : String) (h : s.data.head? ≠ some '-') :
    ∀ k : Int, to_numeric s = some k → 0 ≤ k := by
  intro k hk
  unfold to_numeric at hk
  split at hk
  · next heq => rw [heq] at h; simp at h
  · next heq =>
      rcases Option.map_eq_some'.mp hk with ⟨n, -, rfl⟩
      exact Int.ofNat_nonneg n
  · next heq =>
      rcases Option.map_eq_some'.mp hk with ⟨n, -, rfl⟩
      exact Int.ofNat_nonneg n

theorem head_not_dash_of_digits (cs : List Char)
    (h : ∀ c ∈ cs, c.isDigit = true) : cs.head? ≠ some '-' := by
  cases cs with
  | nil => simp
  | cons c t =>
      intro hc
      simp only [List.head?_cons, Option.some.injEq] at hc
      subst hc
      have := h '-' (List.mem_cons_self _ _)
      simp at this

theorem to_numeric_strip_nonneg (strip : String → String)
    (hsub : ∀ s : String, ∀ c ∈ (strip s).data, c ∈ s.data)
    (s : String) (hdig : ∀ c ∈ s.data, c.isDigit = true) :
    0 ≤ (to_numeric (strip s)).getD 0 := by
  cases hto : to_numeric (strip s) with
  | none => simp
  | some k =>
      have hd : ∀ c ∈ (strip s).data, c.isDigit = true :=
        fun c hc => hdig c (hsub s c hc)
      simpa using to_numeric_nonneg _ (head_not_dash_of_digits _ hd) k hto

theorem stripPriceStr_sub (s : String) : ∀ c ∈ (stripPriceStr s).data, c ∈ s.data := by
  intro c hc
  exact List.mem_of_mem_filter hc

theorem stripCommas_sub (s : String) : ∀ c ∈ (stripCommas s).data, c ∈ s.data := by
  intro c hc
  exact List.mem_of_mem_filter hc

theorem clean_cell_nonneg (strip : String → String)
    (hsub : ∀ s : String, ∀ c ∈ (strip s).data, c ∈ s.data)
    (hnan : strip "nan" = "nan")
    (c : Cell)
    (hc : (match c with
      | Cell.na => true
      | Cell.num n => decide (0 ≤ n)
      | Cell.str s => decide (0 ≤ (to_numeric (strip s)).getD 0)) = true) :
    0 ≤ (to_numeric (strip (cellAsStr c))).getD 0 := by
  cases c with
  | na =>
      simp only [cellAsStr, hnan]
      decide
  | num n =>
      simp only [cellAsStr]
      have hn : (0 : Int) ≤ n := by simpa using hc
      exact to_numeric_strip_nonneg strip hsub (intStr n) (intStr_digits n hn)
  | str s => simpa using hc

theorem Clean_Price_nonneg (cells : List Cell)
    (h : ∀ c ∈ cells, nonnegPriceCell c = true) :
    ∀ v : Int, some v ∈ Clean_Price cells → 0 ≤ v := by
  intro v hv
  unfold Clean_Price at hv
  split at hv
  · rcases List.mem_map.mp hv with ⟨c, hc, hvc⟩
    have hval := clean_cell_nonneg stripPriceStr stripPriceStr_sub (by decide)
      c (h c hc)
    have : v = (to_numeric (stripPriceStr (cellAsStr c))).getD 0 :=
      (Option.some.injEq _ _).mp hvc.symm
    omega
  · rcases List.mem_map.mp hv with ⟨c, hc, hvc⟩
    cases c with
    | na => simp at hvc
    | str s => simp at hvc
    | num n =>
        have hn : v = n := by simpa using hvc.symm
        have := h _ hc
        simp only [nonnegPriceCell, decide_eq_true_eq] at this
        omega

theorem Clean_SqFt_nonneg (sq : Option (List Cell)) (n : Nat)
    (h : ∀ cells, sq = some cells → ∀ c ∈ cells, nonnegSqftCell c = true) :
    ∀ v : Int, some v ∈ Clean_SqFt sq n → 0 ≤ v := by
  intro v hv
  cases sq with
  | none =>
      simp only [Clean_SqFt] at hv
      have h0 := List.eq_of_mem_replicate hv
      have hv0 : v = 0 := by simpa using h0
      omega
  | some cells =>
      simp only [Clean_SqFt] at hv
      rcases List.mem_map.mp hv with ⟨c, hc, hvc⟩
      have hval := clean_cell_nonneg stripCommas stripCommas_sub (by decide)
        c (h cells rfl c hc)
      have : v = (to_numeric (stripCommas (cellAsStr c))).getD 0 :=
        (Option.some.injEq _ _).mp hvc.symm
      omega

/-- C2 fails on the code: a textual raw price `"-100"` normalizes to the
negative number `-100`, and a missing value inside an all-numeric `Price`
column stays missing (`NaN`) rather than numeric — the claimed invariant
`price ≥ 0` (never negative, never non-numeric) does not hold for malformed
input. -/
theorem C2_counterexample :
    Clean_Price [Cell.str "-100"] = [some (-100)]
    ∧ ((-100 : Int) < 0)
    ∧ Clean_Price [Cell.num 500000, Cell.na] = [some 500000, none] :=
  ⟨by decide, by decide, by decide⟩

/-- C2 amended: after normalization every present price value and every sqft
value is non-negative provided no raw cell denotes a negative number (missing
and unparseable raw values are fine); sqft values are always present
(numeric), and price values are all present whenever the `Price` column is
textual — only a missing value in an all-numeric `Price` column passes
through as missing. -/
theorem C2_amended_nonneg (df : DF) :
    ((∀ c ∈ df.price, nonnegPriceCell c = true) →
      ∀ v : Int, some v ∈ Clean_Price df.price → 0 ≤ v)
    ∧ ((∀ cells, df.sqft = some cells → ∀ c ∈ cells, nonnegSqftCell c = true) →
      ∀ v : Int, some v ∈ Clean_SqFt df.sqft df.price.length → 0 ≤ v)
    ∧ (Price_dtype_is_object df.price = true →
      ∀ o ∈ Clean_Price df.price, o.isSome = true)
    ∧ (∀ o ∈ Clean_SqFt df.sqft df.price.length, o.isSome = true) := by
  refine ⟨Clean_Price_nonneg df.price, Clean_SqFt_nonneg df.sqft _, ?_, ?_⟩
  · intro hobj o ho
    unfold Clean_Price at ho
    rw [hobj] at ho
    simp only [if_true] at ho
    rcases List.mem_map.mp ho with ⟨c, -, hvc⟩
    simp [← hvc]
  · intro o ho
    cases hsq : df.sqft with
    | none =>
        rw [hsq] at ho
        simp only [Clean_SqFt] at ho
        have := List.eq_of_mem_replicate ho
        simp [this]
    | some cells =>
        rw [hsq] at ho
        simp only [Clean_SqFt] at ho
        rcases List.mem_map.mp ho with ⟨c, -, hvc⟩
        simp [← hvc]

/-- Witness for C2's amended claim at a concrete dataset. -/
theorem C2_amended_nonneg_witness :
    ((∀ c ∈ dfNonnegW.price, nonnegPriceCell c = true)
      ∧ (∀ v : Int, some v ∈ Clean_Price dfNonnegW.price → 0 ≤ v))
    ∧ (∀ v : Int, some v ∈ Clean_SqFt dfNonnegW.sqft dfNonnegW.price.length
        → 0 ≤ v) := by
  refine ⟨⟨by decide, ?_⟩, ?_⟩
  · exact (C2_amended_nonneg dfNonnegW).1 (by decide)
  · exact (C2_amended_nonneg dfNonnegW).2.1
      (by intro cells hc c hcc; cases hc; revert hcc; revert c; decide)

theorem hasStrCell_nil : hasStrCell [] = false := rfl

theorem strCol_guard_false (l : List String) :
    (!(l.map Cell.str).isEmpty && !hasStrCell (l.map Cell.str)) = false := by
  cases l <;> rfl

theorem filtered_indices_no_search (df : DF) (f : FilterSpec)
    (h : f.searchTerm = "")
    (hbeds : hasStrCell (df.beds.getD []) = false)
    (hbaths : hasStrCell (df.baths.getD []) = false) :
    filtered_indices df f
      = Except.ok ((List.range df.price.length).filter (fun i => mask df f i)) := by
  unfold filtered_indices
  rw [h, hbeds, hbaths]
  simp

/-- C8: with every other filter neutral, the price-range filter keeps exactly
the rows whose price lies between the two ends inclusively; on the two-row
Nashua/Concord dataset with textual prices, the range `[0, 400000]` keeps
exactly the Nashua row. -/
theorem C8_price_range_inclusive :
    (∀ (ps : List Int) (lo hi : Int) (c : Option (List Cell)),
      filtered_indices { price := ps.map Cell.num, city := c }
          { price_lo := lo, price_hi := hi }
        = Except.ok ((List.range ps.length).filter
            (fun i => lo ≤ ps.getD i 0 && ps.getD i 0 ≤ hi)))
    ∧ filtered_indices
        { price := [Cell.str "$300,000", Cell.str "$450,000"],
          city := some [Cell.str "Nashua", Cell.str "Concord"],
          beds := some [Cell.num 3, Cell.num 2] }
        { price_lo := 0, price_hi := 400000 } = Except.ok [0] := by
  constructor
  · intro ps lo hi c
    rw [filtered_indices_no_search { price := ps.map Cell.num, city := c }
      { price_lo := lo, price_hi := hi } rfl rfl rfl]
    simp only [List.length_map]
    refine congrArg Except.ok (List.filter_congr ?_)
    intro i hi'
    have hilt : i < ps.length := List.mem_range.mp hi'
    have hp : (Clean_Price (ps.map Cell.num)).getD i none = some (ps.getD i 0) := by
      rw [Clean_Price_num_map]
      exact getD_map_lt _ ps i hilt none 0
    have hs : (Clean_SqFt none (ps.map Cell.num).length).getD i none = some 0 := by
      simp only [Clean_SqFt]
      exact getD_replicate_lt _ none _ i (by simpa using hilt)
    simp only [mask, hp, hs, obetween, selected_cities]
    cases c <;> simp
  · rfl

theorem mask_beds_true (df : DF) (f : FilterSpec) (i : Nat) (bc : List Cell)
    (hb : df.beds = some bc) (hm : mask df f i = true) :
    cellGe (cellAt bc i) f.minBeds = true := by
  unfold mask at hm
  rw [hb] at hm
  rcases hba : df.baths with _ | bac <;> rw [hba] at hm <;>
    simp only [Bool.and_eq_true] at hm <;> tauto

theorem mask_baths_true (df : DF) (f : FilterSpec) (i : Nat) (bc : List Cell)
    (hb : df.baths = some bc) (hm : mask df f i = true) :
    cellGe (cellAt bc i) f.minBaths = true := by
  unfold mask at hm
  rw [hb] at hm
  simp only [Bool.and_eq_true] at hm
  tauto

theorem excluded_of_mask_false (df : DF) (f : FilterSpec) (i : Nat)
    (h : mask df f i = false) :
    i ∉ okIndices (filtered_indices df f) := by
  unfold filtered_indices
  split
  · simp [okIndices]
  · split
    · simp [okIndices]
    · split
      · simp [okIndices]
      · split
        · simp [okIndices]
        · split
          · simp [okIndices]
          · intro hmem
            simp only [okIndices, List.mem_filter] at hmem
            rcases hmem with ⟨-, hm⟩
            rw [h] at hm
            cases hm

/-- C9: when the `Bedrooms Total` column is present, a row whose bedrooms
cell is missing is excluded by the query even when `minBeds` is 0 (pandas
compares `NaN >= k` as `False`); likewise for `Bathrooms Total` and
`minBaths`. -/
theorem C9_missing_beds_excluded (df : DF) (f : FilterSpec)
    (pre post : List Cell) :
    pre.length ∉ okIndices (filtered_indices
        { df with beds := some (pre ++ Cell.na :: post) } f)
    ∧ pre.length ∉ okIndices (filtered_indices
        { df with baths := some (pre ++ Cell.na :: post) } f) := by
  constructor
  · cases hm : mask { df with beds := some (pre ++ Cell.na :: post) } f pre.length with
    | false => exact excluded_of_mask_false _ _ _ hm
    | true =>
        have h2 := mask_beds_true _ f pre.length _ rfl hm
        rw [show cellAt (pre ++ Cell.na :: post) pre.length = Cell.na from
          getD_append_length _ _ _ _] at h2
        simp [cellGe] at h2
  · cases hm : mask { df with baths := some (pre ++ Cell.na :: post) } f pre.length with
    | false => exact excluded_of_mask_false _ _ _ hm
    | true =>
        have h2 := mask_baths_true _ f pre.length _ rfl hm
        rw [show cellAt (pre ++ Cell.na :: post) pre.length = Cell.na from
          getD_append_length _ _ _ _] at h2
        simp [cellGe] at h2

/-- C10 fails as stated: when every value of the `Address` column is
missing, the column read from the CSV is numeric (float64), not object
dtype, so `df['Address'].str.lower()` at source line 104 raises
`AttributeError` — a missing address value makes the search filter error.
The claim's fallback never happens for that row even though its listing id
`"MLS123"` does contain the term `"123"`: the query errors instead of
retaining it. -/
theorem C10_counterexample :
    mlsMatch "123" (Cell.str "MLS123") = true
    ∧ filtered_indices
        { price := [Cell.num 0], address := some [Cell.na],
          mls := some [Cell.str "MLS123"] }
        { searchTerm := "123" }
      = Except.error "AttributeError: Can only use .str accessor with string values" :=
  ⟨by decide, by rfl⟩

/-- C10 amended: provided the `Address` column holds at least one string
value (so it is object dtype and the `.str` accessor exists), a row whose
own address value is missing never makes the search filter raise: the query
completes, that row's search conjunct reduces to its `MLS #` side alone
(`na=False` discards the missing address), and the row can still be retained
by matching on its listing id.  When the column holds no string value at all
(every address missing, or numeric addresses), the `.str` accessor itself
raises `AttributeError` for the whole query. -/
theorem C10_missing_address_amended :
    (∀ (df : DF) (f : FilterSpec) (pre post mc : List Cell),
      hasStrCell (pre ++ Cell.na :: post) = true →
      isOkE (filtered_indices
          { df with
            address := some (pre ++ Cell.na :: post), mls := some mc
            beds := none, baths := none } f) = true)
    ∧ (∀ (df : DF) (pre post mc : List Cell) (term : String),
      searchConj { df with address := some (pre ++ Cell.na :: post), mls := some mc }
          term pre.length
        = mlsMatch term (cellAt mc pre.length))
    ∧ filtered_indices
        { price := [Cell.num 0, Cell.num 0],
          address := some [Cell.na, Cell.str "Oak Ave"],
          mls := some [Cell.str "MLS123", Cell.str "X9"] }
        { searchTerm := "123" } = Except.ok [0] := by
  refine ⟨?_, ?_, by rfl⟩
  · intro df f pre post mc h
    unfold filtered_indices
    simp [isOkE, h, hasStrCell_nil]
  · intro df pre post mc term
    unfold searchConj
    simp only [Option.getD_some]
    rw [show cellAt (pre ++ Cell.na :: post) pre.length = Cell.na from
      getD_append_length _ _ _ _]
    simp [addrMatch]

/-- Witness for C10's amended claim at a concrete dataset whose address
column mixes a missing value with a string value. -/
theorem C10_missing_address_amended_witness :
    (hasStrCell ([] ++ Cell.na :: [Cell.str "Oak Ave"]) = true)
    ∧ isOkE (filtered_indices
        { price := [Cell.num 0, Cell.num 0],
          address := some ([] ++ Cell.na :: [Cell.str "Oak Ave"]),
          mls := some [Cell.str "MLS123", Cell.str "X9"],
          beds := none, baths := none }
        { searchTerm := "123" }) = true :=
  ⟨by decide, C10_missing_address_amended.1 { price := [Cell.num 0, Cell.num 0] }
    { searchTerm := "123" } [] [Cell.str "Oak Ave"]
    [Cell.str "MLS123", Cell.str "X9"] (by decide)⟩

/-- C5: an empty city selection gives exactly the result of the engine with
the city filter omitted entirely, and an empty property-type selection (the
filter modelled from the spec) passes every row through — an empty
multi-select never zeroes out the result. -/
theorem C5_empty_multiselect_means_all (df : DF) (f : FilterSpec)
    (l : List Nat) :
    filtered_indices df { f with cities := [] } = filtered_indices_noCity df f
    ∧ typesFilter df { f with propertyTypes := [] } l = l := by
  constructor
  · obtain ⟨p, sq, dm, ad, ml, ci, be, ba, pt⟩ := df
    cases ci <;> rfl
  · rfl

/-- C6: a filter term whose column is absent from the dataset is skipped
rather than evaluated: with no `DOM` column the query is insensitive to
`domRange` and the DOM sort is the identity; with no `Bedrooms Total`
(resp. `Bathrooms Total`) column the query is insensitive to `minBeds`
(resp. `minBaths`).  In particular such filters and sorts never raise and
never exclude all rows by themselves. -/
theorem C6_absent_columns_skipped (df : DF) (f : FilterSpec) (a b : Int)
    (l : List Nat) :
    filtered_indices { df with dom := none } { f with dom_lo := a, dom_hi := b }
      = filtered_indices { df with dom := none } f
    ∧ filtered_indices { df with beds := none } { f with minBeds := a }
      = filtered_indices { df with beds := none } f
    ∧ filtered_indices { df with baths := none } { f with minBaths := a }
      = filtered_indices { df with baths := none } f
    ∧ applySort { df with dom := none } SortKey.domAsc l = l :=
  ⟨rfl, rfl, rfl, rfl⟩

/-- C7 fails as stated: a parsed table with a `Price` column but no `Address`
column is not a load failure at all — `load_data` returns a fully loaded
dataset; a structurally unparseable source raises an uncaught `ParserError`
rather than taking the handled single-message path a missing file takes; and
an individual row's bad field value can throw after all: a single textual
`Bedrooms Total` cell `"two"` makes the query's `>= min_beds` comparison
raise `TypeError`. -/
theorem C7_counterexample :
    load_data (Source.table { price := some [Cell.num 100000] })
      = LoadResult.loaded { price := [Cell.num 100000] }
    ∧ load_data Source.unparseable = LoadResult.raised "ParserError"
    ∧ filtered_indices
        { price := [Cell.num 100000], beds := some [Cell.str "two"] }
        ({} : FilterSpec)
      = Except.error "TypeError: >= not supported between instances of str and int" :=
  ⟨rfl, rfl, by rfl⟩

/-- C7 amended: a missing source file is caught and surfaces as the single
handled load error (`None`); an unparseable source or a table without a
`Price` column raises an uncaught exception out of `load_data` — in every
failure no dataset, partial or otherwise, is produced — and a table with a
`Price` column always loads fully, whatever else is missing.  At the
filtering stage the cleaned price/sqft/DOM values never raise: with no
search active and no textual bedroom/bathroom cells the query always
completes.  Contrary to the original claim, though, bad field values can
escalate: a textual cell in a present `Bedrooms Total`/`Bathrooms Total`
column raises `TypeError` at the `>=` comparison, and with a search active
an `Address` column holding no string values raises `AttributeError` (while
a missing `Address` or `MLS #` column raises `KeyError`). -/
theorem C7_amended_load_errors :
    (load_data Source.missing = LoadResult.noFile)
    ∧ (load_data Source.unparseable = LoadResult.raised "ParserError")
    ∧ (∀ t : RawTable, load_data (Source.table { t with price := none })
        = LoadResult.raised "KeyError: Price")
    ∧ (∀ (t : RawTable) (pc : List Cell),
        load_data (Source.table { t with price := some pc })
          = LoadResult.loaded
              { price := pc, sqft := t.sqft, dom := t.dom,
                address := t.address, mls := t.mls, city := t.city,
                beds := t.beds, baths := t.baths, ptype := t.ptype })
    ∧ (∀ (df : DF) (f : FilterSpec),
        hasStrCell (df.beds.getD []) = false →
        hasStrCell (df.baths.getD []) = false →
        isOkE (filtered_indices df { f with searchTerm := "" }) = true)
    ∧ (∀ (df : DF) (f : FilterSpec),
        hasStrCell (df.beds.getD []) = true →
        isOkE (filtered_indices df f) = false)
    ∧ (∀ (df : DF) (f : FilterSpec) (ac : List Cell),
        f.searchTerm ≠ "" → df.address = some ac → ac ≠ [] →
        hasStrCell ac = false →
        isOkE (filtered_indices df f) = false) := by
  refine ⟨rfl, rfl, fun t => rfl, fun t pc => rfl, ?_, ?_, ?_⟩
  · intro df f hbeds hbaths
    rw [filtered_indices_no_search _ _ rfl hbeds hbaths]
    rfl
  · intro df f hbeds
    unfold filtered_indices
    rw [hbeds]
    split
    · rfl
    · split
      · rfl
      · split
        · rfl
        · rfl
  · intro df f ac hterm haddr hne hstr
    cases ac with
    | nil => exact absurd rfl hne
    | cons a t =>
        unfold filtered_indices
        rw [haddr]
        simp [isOkE, hterm, hstr]

/-- Witness for C7's amended claim at concrete datasets exercising each of
its query-stage hypotheses: a numeric beds column completes, a textual beds
cell raises, and an all-missing address column raises under an active
search. -/
theorem C7_amended_load_errors_witness :
    (hasStrCell ((DF.mk [Cell.num 1] none none none none none
          (some [Cell.num 3]) none none).beds.getD []) = false
      ∧ isOkE (filtered_indices
          { price := [Cell.num 1], beds := some [Cell.num 3] }
          { ({} : FilterSpec) with searchTerm := "" }) = true)
    ∧ (hasStrCell ((DF.mk [Cell.num 1] none none none none none
          (some [Cell.str "two"]) none none).beds.getD []) = true
      ∧ isOkE (filtered_indices
          { price := [Cell.num 1], beds := some [Cell.str "two"] }
          ({} : FilterSpec)) = false)
    ∧ (("x" : String) ≠ "" ∧ hasStrCell [Cell.na] = false
      ∧ isOkE (filtered_indices
          { price := [Cell.num 1], address := some [Cell.na], mls := some [] }
          { searchTerm := "x" }) = false) := by
  refine ⟨⟨by decide, ?_⟩, ⟨by decide, ?_⟩, by decide, by decide, ?_⟩
  · exact C7_amended_load_errors.2.2.2.2.1
      { price := [Cell.num 1], beds := some [Cell.num 3] } {} (by decide) (by decide)
  · exact C7_amended_load_errors.2.2.2.2.2.1
      { price := [Cell.num 1], beds := some [Cell.str "two"] } {} (by decide)
  · exact C7_amended_load_errors.2.2.2.2.2.2
      { price := [Cell.num 1], address := some [Cell.na], mls := some [] }
      { searchTerm := "x" } [Cell.na] (by decide) rfl (by decide) (by decide)

/-- C3 fails as stated: the engine lowercases the search term but not the
`MLS #` string, so the listing-id match is case-sensitive.  The term
`"AB12"` is a case-insensitive substring of the listing id `"AB12"` (the
claim's predicate holds), yet the engine excludes the row. -/
theorem C3_counterexample :
    claimSearchKeeps "AB12" "Oak Ave" "AB12" = true
    ∧ filtered_indices
        { price := [Cell.num 0], address := some [Cell.str "Oak Ave"],
          mls := some [Cell.str "AB12"] }
        { searchTerm := "AB12" } = Except.ok [] :=
  ⟨by decide, by rfl⟩

/-- C3 amended: with a non-empty search term the query keeps exactly the
rows where the lowercased term occurs in the lowercased address (a
case-insensitive match) or occurs verbatim in the listing id (case-sensitive
on the id's side, so ids containing uppercase letters may fail to match);
an empty term keeps every row.  The `"main"` scenario retains
`"123 Main St"` and excludes `"Oak Ave"`. -/
theorem C3_amended_search :
    (∀ (addrs ms : List String) (term : String), ms.length = addrs.length →
      filtered_indices (searchDF addrs ms) { searchTerm := term }
        = Except.ok ((List.range addrs.length).filter (fun i =>
            decide (term = "")
            || (containsSub (lowerStr term).data (lowerStr (addrs.getD i "")).data
                || containsSub (lowerStr term).data (ms.getD i "").data))))
    ∧ filtered_indices (searchDF ["123 Main St", "Oak Ave"] ["73555001", "73555002"])
        { searchTerm := "main" } = Except.ok [0] := by
  constructor
  · intro addrs ms term hlen
    unfold filtered_indices
    simp only [searchDF, Option.isNone_some, Option.getD_some, Option.getD_none,
      strCol_guard_false, hasStrCell_nil, Bool.and_false, Bool.false_eq_true,
      if_false, List.length_replicate]
    refine congrArg Except.ok (List.filter_congr ?_)
    intro i hi
    have hilt : i < addrs.length := List.mem_range.mp hi
    have hilt' : i < ms.length := by omega
    have hp : (Clean_Price (List.replicate addrs.length (Cell.num 0))).getD i none
        = some 0 := by
      rw [Clean_Price_replicate_num]
      exact getD_replicate_lt _ none _ i hilt
    have hs : (Clean_SqFt none (List.replicate addrs.length (Cell.num 0)).length).getD
        i none = some 0 := by
      simp only [Clean_SqFt, List.length_replicate]
      exact getD_replicate_lt _ none _ i hilt
    have ha : cellAt (addrs.map Cell.str) i = Cell.str (addrs.getD i "") :=
      getD_map_lt Cell.str addrs i hilt Cell.na ""
    have hm : cellAt (ms.map Cell.str) i = Cell.str (ms.getD i "") :=
      getD_map_lt Cell.str ms i hilt' Cell.na ""
    simp only [mask, searchDF, hp, hs, obetween, selected_cities, searchConj,
      Option.getD_some, ha, hm]
    by_cases hterm : term = ""
    · subst hterm
      simp
    · simp [hterm, addrMatch, mlsMatch, cellAsStr]
  · rfl

/-- Witness for C3's amended claim at a concrete pair of rows and term. -/
theorem C3_amended_search_witness :
    ((["73555001", "73555002"] : List String).length
        = (["123 Main St", "Oak Ave"] : List String).length)
    ∧ filtered_indices (searchDF ["123 Main St", "Oak Ave"] ["73555001", "73555002"])
        { searchTerm := "main" }
      = Except.ok ((List.range (["123 Main St", "Oak Ave"] : List String).length).filter
          (fun i =>
            decide (("main" : String) = "")
            || (containsSub (lowerStr "main").data
                  (lowerStr ((["123 Main St", "Oak Ave"] : List String).getD i "")).data
                || containsSub (lowerStr "main").data
                  ((["73555001", "73555002"] : List String).getD i "").data))) :=
  ⟨rfl, C3_amended_search.1 ["123 Main St", "Oak Ave"] ["73555001", "73555002"]
    "main" (by decide)⟩

theorem npInsertIdx_mem (v : List Int) (i : Nat) :
    ∀ (l : List Nat) (b : Nat), b ∈ npInsertIdx v i l → b = i ∨ b ∈ l := by
  intro l
  induction l with
  | nil => intro b hb; simp [npInsertIdx] at hb; exact Or.inl hb
  | cons j t ih =>
      intro b hb
      unfold npInsertIdx at hb
      split at hb
      · rcases List.mem_cons.mp hb with hb | hb
        · exact Or.inl hb
        · exact Or.inr hb
      · rcases List.mem_cons.mp hb with hb | hb
        · exact Or.inr (by simp [hb])
        · rcases ih b hb with hb | hb
          · exact Or.inl hb
          · exact Or.inr (List.mem_cons_of_mem _ hb)

theorem npInsertIdx_length (v : List Int) (i : Nat) :
    ∀ l : List Nat, (npInsertIdx v i l).length = l.length + 1 := by
  intro l
  induction l with
  | nil => rfl
  | cons j t ih =>
      unfold npInsertIdx
      split
      · simp
      · simp [ih]

theorem foldl_insert_length (v : List Int) :
    ∀ (l acc : List Nat),
      (l.foldl (fun a i => npInsertIdx v i a) acc).length
        = acc.length + l.length := by
  intro l
  induction l with
  | nil => intro acc; simp
  | cons k t ih =>
      intro acc
      simp only [List.foldl_cons, List.length_cons]
      rw [ih, npInsertIdx_length]
      omega

theorem npInsertionSort_length (v : List Int) (l : List Nat) :
    (npInsertionSort v l).length = l.length := by
  unfold npInsertionSort
  rw [foldl_insert_length]
  simp

theorem npArgsort_small (v : List Int) (h : v.length ≤ 16) :
    npArgsort v = npInsertionSort v (List.range v.length) := by
  unfold npArgsort
  by_cases h1 : v.length ≤ 1
  · rw [if_pos h1]
    rcases Nat.le_one_iff_eq_zero_or_eq_one.mp h1 with h0 | h0 <;> rw [h0] <;> rfl
  · rw [if_neg h1]
    have h2 : 2 ≤ v.length := by omega
    unfold introLoop
    rw [if_neg (by omega : ¬ 15 < v.length - 1 - 0)]
    have hseg : listGetSeg (List.range v.length) 0 (v.length - 1)
        = List.range v.length := by
      unfold listGetSeg
      rw [List.drop_zero]
      have : v.length - 1 + 1 - 0 = v.length := by omega
      rw [this]
      exact List.take_of_length_le (by simp)
    rw [hseg]
    unfold listSetSeg
    have hlen : (npInsertionSort v (List.range v.length)).length = v.length := by
      rw [npInsertionSort_length, List.length_range]
    simp [hlen, List.drop_length]

theorem npInsertIdx_pairwise (v : List Int) (i : Nat) :
    ∀ l : List Nat,
      l.Pairwise (fun a b => kval v a < kval v b ∨ (kval v a = kval v b ∧ a < b)) →
      (∀ j ∈ l, j < i) →
      (npInsertIdx v i l).Pairwise
        (fun a b => kval v a < kval v b ∨ (kval v a = kval v b ∧ a < b)) := by
  intro l
  induction l with
  | nil => intro _ _; simp [npInsertIdx]
  | cons j t ih =>
      intro hp hlt
      unfold npInsertIdx
      split
      · next hij =>
          refine List.Pairwise.cons ?_ hp
          intro b hb
          rcases List.mem_cons.mp hb with hb | hb
          · subst hb; exact Or.inl hij
          · rcases List.rel_of_pairwise_cons hp hb with hjb | hjb
            · exact Or.inl (lt_trans hij hjb)
            · exact Or.inl (by omega)
      · next hij =>
          rcases List.pairwise_cons.mp hp with ⟨hj, ht⟩
          refine List.Pairwise.cons ?_ (ih ht fun k hk => hlt k (List.mem_cons_of_mem _ hk))
          intro b hb
          rcases npInsertIdx_mem v i t b hb with hb | hb
          · subst hb
            rcases lt_or_eq_of_le (not_lt.mp hij) with hji | hji
            · exact Or.inl hji
            · exact Or.inr ⟨hji, hlt j (List.mem_cons_self _ _)⟩
          · exact hj b hb

theorem foldl_insert_pairwise (v : List Int) :
    ∀ (todo acc : List Nat),
      acc.Pairwise (fun a b => kval v a < kval v b ∨ (kval v a = kval v b ∧ a < b)) →
      (∀ j ∈ acc, ∀ k ∈ todo, j < k) →
      todo.Pairwise (· < ·) →
      (todo.foldl (fun a i => npInsertIdx v i a) acc).Pairwise
        (fun a b => kval v a < kval v b ∨ (kval v a = kval v b ∧ a < b)) := by
  intro todo
  induction todo with
  | nil => intro acc hacc _ _; simpa using hacc
  | cons k t ih =>
      intro acc hacc hcross htodo
      simp only [List.foldl_cons]
      rcases List.pairwise_cons.mp htodo with ⟨hk, ht⟩
      refine ih (npInsertIdx v k acc)
        (npInsertIdx_pairwise v k acc hacc
          (fun j hj => hcross j hj k (List.mem_cons_self _ _))) ?_ ht
      intro j hj k' hk'
      rcases npInsertIdx_mem v k acc j hj with hj | hj
      · subst hj; exact hk k' hk'
      · exact hcross j hj k' (List.mem_cons_of_mem _ hk')

theorem npInsertionSort_stable (v : List Int) :
    (npInsertionSort v (List.range v.length)).Pairwise
      (fun a b => kval v a < kval v b ∨ (kval v a = kval v b ∧ a < b)) := by
  unfold npInsertionSort
  refine foldl_insert_pairwise v (List.range v.length) [] (List.Pairwise.nil) ?_ ?_
  · intro j hj; simp at hj
  · exact List.pairwise_lt_range _

/-- C4 fails as stated: on seventeen rows of equal cleaned price, the
`price_asc` sort (pandas `sort_values` with its default quicksort) does not
return the rows in their original order — numpy's quicksort partition swaps
tied entries once the filtered set exceeds its 16-element insertion-sort
regime. -/
theorem C4_counterexample :
    Clean_Price df17.price = List.replicate 17 (some 400000)
    ∧ applySort df17 SortKey.priceAsc (List.range 17) ≠ List.range 17 :=
  ⟨by decide, by decide⟩

/-- C4 amended: the sort orders rows by the sort key, but rows with equal
keys are not guaranteed to keep their relative original order; they do keep
it whenever at most 16 rows are sorted, where numpy's argsort is a stable
left-to-right insertion sort: the ascending argsort of at most 16 keys lists
the indices in key order with ties in increasing (original) index order. -/
theorem C4_amended_stability (v : List Int) (h : v.length ≤ 16) :
    (npArgsort v).Pairwise
      (fun a b => kval v a < kval v b ∨ (kval v a = kval v b ∧ a < b)) := by
  rw [npArgsort_small v h]
  exact npInsertionSort_stable v

/-- Witness for C4's amended claim at a concrete small key list. -/
theorem C4_amended_stability_witness :
    (([40, 10, 10, 20] : List Int).length ≤ 16)
    ∧ (npArgsort [40, 10, 10, 20]).Pairwise
        (fun a b => kval [40, 10, 10, 20] a < kval [40, 10, 10, 20] b
          ∨ (kval [40, 10, 10, 20] a = kval [40, 10, 10, 20] b ∧ a < b)) :=
  ⟨by decide, C4_amended_stability [40, 10, 10, 20] (by decide)⟩
